import Mathlib

/-!
Verification development for the Task Intelligence Heuristics Engine of the
AITaskManagerBackend repository (`src/controllers/aiController.ts`).

The four generator helpers (`calculateTimeEstimation`,
`calculatePrioritySuggestion`, `calculateAssigneeSuggestions`,
`generateTaskBreakdown`) and the request handlers that persist their output
into the `ai_suggestions` store are embedded as executable Lean functions.
JavaScript numbers are modelled as `ℚ` (the heuristics only use arithmetic
far below any floating-point precision boundary), machine integers as
`ℤ`/`ℕ`, and JavaScript strings as `String` processed through `List Char`
helpers mirroring `String.prototype.includes`, `toLowerCase` and
`split(' ')`.  `Math.random()` is modelled as an explicit stream of rational
draws in `[0,1)`.
-/

/-- Embeds `haystack.startsWith(needle)` on character lists: used to build
the substring test below. -/
def startsWithL : List Char → List Char → Bool
  | _, [] => true
  | [], _ :: _ => false
  | c :: cs, d :: ds => c = d && startsWithL cs ds

/-- Embeds JavaScript `haystack.includes(needle)` (substring containment)
on character lists. -/
def containsL : List Char → List Char → Bool
  | [], sub => sub.isEmpty
  | c :: cs, sub => startsWithL (c :: cs) sub || containsL cs sub

/-- `String` version of `includes`. -/
def strIncludes (s sub : String) : Bool := containsL s.toList sub.toList

/-- Embeds `s.toLowerCase()` (the engine's keywords are all ASCII). -/
def lowerStr (s : String) : String := ⟨s.toList.map Char.toLower⟩

/-- JavaScript coercion of a possibly-`undefined` string as it happens in
`title + ' ' + description`: an absent description contributes the literal
token `"undefined"`. -/
def jsStr (s : Option String) : String := s.getD "undefined"

/-- The combined analysis text `title + ' ' + description` formed by every
generator. -/
def jsText (title : String) (description : Option String) : String :=
  title ++ " " ++ jsStr description

/-- The lower-cased combined text `(title + ' ' + description).toLowerCase()`
that keyword and skill matching run on. -/
def lowerText (title : String) (description : Option String) : String :=
  lowerStr (jsText title description)

/-- Embeds `text.split(' ')` (single-space separator, keeping empty
pieces, exactly as `String.prototype.split` with `' '`). -/
def splitSpaces : List Char → List (List Char)
  | [] => [[]]
  | c :: cs =>
    match splitSpaces cs, decide (c = ' ') with
    | r, true => [] :: r
    | p :: ps, false => (c :: p) :: ps
    | [], false => [[c]]

/-- `(title + ' ' + description).split(' ').length`. -/
def wordCountStr (s : String) : ℕ := (splitSpaces s.toList).length

/-- `keywords.some(keyword => text.includes(keyword))`. -/
def containsAny (text : String) (kws : List String) : Bool :=
  kws.any (fun k => strIncludes text k)

/-! ## Priority Scorer (`calculatePrioritySuggestion`) -/

def urgentKeywords : List String :=
  ["urgent", "critical", "emergency", "asap", "immediately", "bug", "error", "broken"]

def highKeywords : List String :=
  ["important", "major", "significant", "deadline", "client", "production"]

def lowKeywords : List String :=
  ["nice to have", "enhancement", "minor", "cosmetic", "cleanup"]

/-- Which of the three disjoint keyword sets fires first in the
`if/else if/else if` chain of the scorer (`Tier.noneTier` = no set
matches). -/
inductive Tier
  | lowTier
  | noneTier
  | highTier
  | urgentTier
deriving DecidableEq, Fintype

/-- Score adjustment of the keyword branch that fired. -/
def tierAdj : Tier → ℤ
  | .lowTier => -20
  | .noneTier => 0
  | .highTier => 20
  | .urgentTier => 30

/-- Position of a keyword tier on the low-to-urgent axis (used to state
monotonicity). -/
def tierRank : Tier → ℕ
  | .lowTier => 0
  | .noneTier => 1
  | .highTier => 2
  | .urgentTier => 3

/-- The keyword branch the scorer's `if/else if` chain selects for a given
lower-cased text. -/
def tierOf (text : String) : Tier :=
  if containsAny text urgentKeywords then .urgentTier
  else if containsAny text highKeywords then .highTier
  else if containsAny text lowKeywords then .lowTier
  else .noneTier

/-- Which due-date band fires in the scorer's
`<1 / <3 / <7 / >30 / otherwise` chain; `Band.mid` is also used for an
absent due date (both contribute `+0`). -/
inductive Band
  | farFuture
  | mid
  | within7
  | within3
  | within1
deriving DecidableEq, Fintype

/-- Score adjustment of the due-date band. -/
def bandAdj : Band → ℤ
  | .farFuture => -10
  | .mid => 0
  | .within7 => 10
  | .within3 => 20
  | .within1 => 30

/-- Position of a due-date band on the far-to-near axis. -/
def bandRank : Band → ℕ
  | .farFuture => 0
  | .mid => 1
  | .within7 => 2
  | .within3 => 3
  | .within1 => 4

def msPerDay : ℚ := 86400000

/-- `(due.getTime() - now.getTime()) / (1000 * 60 * 60 * 24)`. -/
def daysUntil (dueMs nowMs : ℤ) : ℚ := ((dueMs : ℚ) - (nowMs : ℚ)) / msPerDay

/-- Band selection `daysUntilDue < 1 / < 3 / < 7 / > 30`, first match
wins. -/
def bandOf (daysUntilDue : ℚ) : Band :=
  if daysUntilDue < 1 then .within1
  else if daysUntilDue < 3 then .within3
  else if daysUntilDue < 7 then .within7
  else if daysUntilDue > 30 then .farFuture
  else .mid

/-- The summed raw priority score: base 50 plus keyword adjustment plus
due-date adjustment plus the `+15` project-urgency bonus.  The scorer
returns this sum unchanged (no clamp). -/
def priorityScore (t : Tier) (b : Band) (projectUrgent : Bool) : ℤ :=
  50 + tierAdj t + bandAdj b + (if projectUrgent then 15 else 0)

/-- Category mapping `>= 80` urgent / `>= 65` high / `<= 30` low /
otherwise medium. -/
def priorityOfScore (score : ℤ) : String :=
  if score ≥ 80 then "urgent"
  else if score ≥ 65 then "high"
  else if score ≤ 30 then "low"
  else "medium"

structure PrioritySuggestion where
  priority : String
  confidence : ℚ
  score : ℤ
  reasoning : List String

/-- Embeds `calculatePrioritySuggestion`.  The due date and clock are
millisecond timestamps; `projectStatus` is the `status` field of the
optional project context (`+15` exactly when it is `'urgent'`). -/
def calculatePrioritySuggestion (title : String) (description : Option String)
    (dueDateMs : Option ℤ) (nowMs : ℤ) (projectStatus : Option String) :
    PrioritySuggestion :=
  let text := lowerText title description
  let t := tierOf text
  let b := match dueDateMs with
    | some due => bandOf (daysUntil due nowMs)
    | none => Band.mid
  let projUrgent := projectStatus == some "urgent"
  let score := priorityScore t b projUrgent
  let reasoning :=
    (if score ≥ 80 then ["High urgency indicators detected"]
     else if score ≥ 65 then ["Important task with high impact"]
     else if score ≤ 30 then ["Low impact or enhancement task"]
     else [])
    ++ (match dueDateMs with
        | some due => if daysUntil due nowMs < 7 then ["Due date approaching"] else []
        | none => [])
  { priority := priorityOfScore score
    confidence := 0.7
    score := score
    reasoning := reasoning }

/-! ## Priority Scorer theorems (C4, C5, C6) -/

/-- **C4.** Title "Critical production issue", description "Server is
down", due in 12 hours, no project-urgency flag: score is exactly
110 = 50 + 30 (urgent keyword) + 30 (due < 1 day), the category is
urgent, and the returned score is the raw sum — it exceeds 100, so no
upper clamp is applied. -/
theorem priority_example_110 :
    (calculatePrioritySuggestion "Critical production issue" (some "Server is down")
        (some 43200000) 0 Option.none).score = 110 ∧
    (calculatePrioritySuggestion "Critical production issue" (some "Server is down")
        (some 43200000) 0 Option.none).priority = "urgent" ∧
    100 < (calculatePrioritySuggestion "Critical production issue" (some "Server is down")
        (some 43200000) 0 Option.none).score := by
  have ht : tierOf (lowerText "Critical production issue" (some "Server is down")) =
      Tier.urgentTier := by decide
  have hb : bandOf (daysUntil 43200000 0) = Band.within1 := by
    unfold bandOf daysUntil msPerDay
    norm_num
  refine ⟨?_, ?_, ?_⟩ <;>
    simp [calculatePrioritySuggestion, ht, hb, priorityScore, tierAdj, bandAdj,
      priorityOfScore]

/-- **C5.** Any input whose lower-cased combined text contains an urgent
keyword, with no due date and no project-urgency flag, scores exactly 80
and is categorised urgent, whatever the other keyword sets do (the
`else if` chain applies only the first match). -/
theorem priority_urgent_keyword_80 (title : String) (description : Option String)
    (nowMs : ℤ)
    (h : containsAny (lowerText title description) urgentKeywords = true) :
    (calculatePrioritySuggestion title description Option.none nowMs Option.none).score = 80 ∧
    (calculatePrioritySuggestion title description Option.none nowMs Option.none).priority =
      "urgent" := by
  have ht : tierOf (lowerText title description) = Tier.urgentTier := by
    unfold tierOf
    rw [h]
    rfl
  constructor <;>
    simp [calculatePrioritySuggestion, ht, priorityScore, tierAdj, bandAdj,
      priorityOfScore]

theorem priority_urgent_keyword_80_witness :
    (calculatePrioritySuggestion "bug" Option.none Option.none 0 Option.none).score = 80 ∧
    (calculatePrioritySuggestion "bug" Option.none Option.none 0 Option.none).priority =
      "urgent" :=
  priority_urgent_keyword_80 "bug" Option.none 0 (by decide)

/-- **C6.** The summed priority score is monotone in each contribution
separately: raising the keyword tier, moving the due-date band nearer, or
turning on the project-urgency flag never decreases the score. -/
theorem priorityScore_monotone :
    ∀ (t t' : Tier) (b b' : Band) (u : Bool),
      (tierRank t ≤ tierRank t' → priorityScore t b u ≤ priorityScore t' b u) ∧
      (bandRank b ≤ bandRank b' → priorityScore t b u ≤ priorityScore t b' u) ∧
      priorityScore t b false ≤ priorityScore t b true := by
  decide

theorem priorityScore_monotone_witness :
    priorityScore Tier.noneTier Band.mid false ≤
      priorityScore Tier.urgentTier Band.mid false ∧
    priorityScore Tier.noneTier Band.mid false ≤
      priorityScore Tier.noneTier Band.within1 false ∧
    priorityScore Tier.noneTier Band.mid false ≤
      priorityScore Tier.noneTier Band.mid true :=
  ⟨(priorityScore_monotone Tier.noneTier Tier.urgentTier Band.mid Band.mid false).1
      (by decide),
   (priorityScore_monotone Tier.noneTier Tier.noneTier Band.mid Band.within1 false).2.1
      (by decide),
   (priorityScore_monotone Tier.noneTier Tier.noneTier Band.mid Band.mid false).2.2⟩

/-! ## Time Estimator (`calculateTimeEstimation`) -/

/-- `priorityMultipliers[priority] || 1.0`. -/
def priorityMultiplier (p : String) : ℚ :=
  if p = "low" then 0.8
  else if p = "medium" then 1.0
  else if p = "high" then 1.3
  else if p = "urgent" then 1.5
  else 1.0

/-- `typeMultipliers[taskType] || 1.0`. -/
def typeMultiplier (t : String) : ℚ :=
  if t = "bug" then 0.7
  else if t = "feature" then 1.2
  else if t = "research" then 1.5
  else if t = "documentation" then 0.8
  else if t = "testing" then 0.9
  else if t = "general" then 1.0
  else 1.0

/-- Row of the historical-completion query (creation and completion
timestamps in milliseconds; the priority column is selected but unused by
the estimator). -/
structure HistoricalTask where
  created_atMs : ℤ
  completed_atMs : ℤ
  priority : String

def msPerHour : ℚ := 3600000

/-- `(completed.getTime() - created.getTime()) / (1000 * 60 * 60)`. -/
def elapsedHours (t : HistoricalTask) : ℚ :=
  ((t.completed_atMs : ℚ) - (t.created_atMs : ℚ)) / msPerHour

/-- JavaScript `Math.round`: round half toward positive infinity. -/
def jsRound (q : ℚ) : ℤ := ⌊q + 1/2⌋

structure TimeFactors where
  complexity : String
  priority : String
  taskType : String
  historicalDataPoints : ℕ

structure TimeEstimation where
  hours : ℤ
  minutes : ℤ
  totalHours : ℚ
  confidence : ℚ
  factors : TimeFactors

/-- Embeds `calculateTimeEstimation`: base 4h, `+2` per word-count
threshold, priority and type multipliers, optional blend with the mean
historical completion time, then split into floor hours and rounded
minutes. -/
def calculateTimeEstimation (title : String) (description : Option String)
    (priority taskType : String) (historicalTasks : List HistoricalTask) :
    TimeEstimation :=
  let wordCount := wordCountStr (jsText title description)
  let b1 : ℚ := 4
  let b2 := if wordCount > 50 then b1 + 2 else b1
  let b3 := if wordCount > 100 then b2 + 2 else b2
  let b4 := b3 * priorityMultiplier priority
  let b5 := b4 * typeMultiplier taskType
  let base :=
    if historicalTasks.length > 0 then
      let avgCompletionTime :=
        (historicalTasks.foldl (fun sum t => sum + elapsedHours t) 0) /
          (historicalTasks.length : ℚ)
      (b5 + avgCompletionTime) / 2
    else b5
  let hours := ⌊base⌋
  let minutes := jsRound ((base - (hours : ℚ)) * 60)
  { hours := hours
    minutes := minutes
    totalHours := base
    confidence := if historicalTasks.length > 10 then 0.8 else 0.6
    factors :=
      { complexity := if wordCount > 50 then "high" else "medium"
        priority := priority
        taskType := taskType
        historicalDataPoints := historicalTasks.length } }

/-! ## Time Estimator theorems (C7, C10) -/

/-- **C7.** Title "Implement user authentication" (short text), priority
high, type feature, empty history: 4 × 1.3 × 1.2 = 6.24 total hours, so
hours = 6, minutes = 14, confidence = 0.6. -/
theorem time_estimate_example :
    (calculateTimeEstimation "Implement user authentication" Option.none
        "high" "feature" []).hours = 6 ∧
    (calculateTimeEstimation "Implement user authentication" Option.none
        "high" "feature" []).minutes = 14 ∧
    (calculateTimeEstimation "Implement user authentication" Option.none
        "high" "feature" []).totalHours = 6.24 ∧
    (calculateTimeEstimation "Implement user authentication" Option.none
        "high" "feature" []).confidence = 0.6 := by
  have hw : wordCountStr (jsText "Implement user authentication" Option.none) = 4 := by
    decide
  refine ⟨?_, ?_, ?_, ?_⟩ <;>
    · simp only [calculateTimeEstimation, hw, priorityMultiplier, typeMultiplier, jsRound,
        String.reduceEq, reduceIte]
      norm_num

/-- **C10.** The estimator has no lower bound: a single historical sample
whose completion timestamp precedes its creation timestamp by 100 hours
blends 4h with −100h into a negative estimate, and `hours = floor` is
negative. -/
theorem time_estimate_negative :
    (calculateTimeEstimation "task" Option.none "medium" "general"
        [{ created_atMs := 360000000, completed_atMs := 0, priority := "medium" }]).totalHours
      = -48 ∧
    (calculateTimeEstimation "task" Option.none "medium" "general"
        [{ created_atMs := 360000000, completed_atMs := 0, priority := "medium" }]).hours
      = -48 ∧
    (calculateTimeEstimation "task" Option.none "medium" "general"
        [{ created_atMs := 360000000, completed_atMs := 0, priority := "medium" }]).hours
      < 0 := by
  have hw : wordCountStr (jsText "task" Option.none) = 2 := by decide
  refine ⟨?_, ?_, ?_⟩ <;>
    · simp only [calculateTimeEstimation, hw, priorityMultiplier, typeMultiplier, jsRound,
        elapsedHours, msPerHour, List.foldl, List.length, String.reduceEq, reduceIte]
      norm_num

/-! ## Assignee Ranker (`calculateAssigneeSuggestions`) -/

/-- Project-member row joined with the two workload counts the handler
computes per member. -/
structure Member where
  id : ℕ
  username : String
  first_name : String
  last_name : String
  email : String
  role : String
  activeTaskCount : ℕ
  totalTaskCount : ℕ

structure UserInfo where
  id : ℕ
  username : String
  first_name : String
  last_name : String
  email : String

structure AssigneeSuggestion where
  user : UserInfo
  score : ℤ
  confidence : ℚ
  reasons : List String
  workloadStatus : String

/-- The per-skill test
`text.includes(skill.toLowerCase()) || member.username.toLowerCase().includes(skill.toLowerCase())`. -/
def skillMatches (text lowUsername : String) (skill : String) : Bool :=
  strIncludes text (lowerStr skill) || strIncludes lowUsername (lowerStr skill)

/-- The raw (unclamped) assignee score: base 50, minus 5 per active task,
plus the capped experience bonus, plus the role bonus, plus 10 per
required skill passing `skillMatches`. -/
def rawAssigneeScore (title : String) (description : Option String)
    (skillsRequired : List String) (m : Member) : ℤ :=
  let s1 : ℤ := 50
  let s2 := s1 - (m.activeTaskCount : ℤ) * 5
  let s3 := s2 + min ((m.totalTaskCount : ℤ) * 2) 20
  let s4 :=
    if m.role = "owner" then s3 + 10
    else if m.role = "admin" then s3 + 5
    else s3
  let text := lowerText title description
  if skillsRequired.length > 0 then
    s4 + ((skillsRequired.filter
      (fun skill => skillMatches text (lowerStr m.username) skill)).length : ℤ) * 10
  else s4

/-- `Math.max(0, Math.min(100, score))`. -/
def clampScore (s : ℤ) : ℤ := max 0 (min 100 s)

/-- `activeTaskCount < 3` light / `< 6` moderate / else heavy. -/
def workloadStatusOf (active : ℕ) : String :=
  if active < 3 then "light" else if active < 6 then "moderate" else "heavy"

/-- One element of the ranker's `members.map(...)`. -/
def assigneeEntry (title : String) (description : Option String)
    (skillsRequired : List String) (m : Member) : AssigneeSuggestion :=
  { user := { id := m.id, username := m.username, first_name := m.first_name,
              last_name := m.last_name, email := m.email }
    score := clampScore (rawAssigneeScore title description skillsRequired m)
    confidence := 0.6
    reasons :=
      ["Current workload: " ++ toString m.activeTaskCount ++ " active tasks",
       "Experience: " ++ toString m.totalTaskCount ++ " total tasks",
       "Role: " ++ m.role] ++
      (if skillsRequired.length > 0
       then ["Skills: " ++ String.intercalate ", " skillsRequired] else [])
    workloadStatus := workloadStatusOf m.activeTaskCount }

/-- Embeds `calculateAssigneeSuggestions`: map every member to its scored
entry, sort descending by score (`sort((a, b) => b.score - a.score)`,
stable as in modern JavaScript engines), return the top 5. -/
def calculateAssigneeSuggestions (title : String) (description : Option String)
    (skillsRequired : List String) (workload : String) (members : List Member) :
    List AssigneeSuggestion :=
  let _ := workload
  ((members.map (assigneeEntry title description skillsRequired)).insertionSort
    (fun a b => b.score ≤ a.score)).take 5

/-! ## Assignee Ranker theorems (C2, C8) -/

/-- **C2 (counterexample).** A single required skill "fine" matching both
the task text (title "fine") and the candidate's name (username "fine")
contributes +10, not +20: the resulting score is 50 + 10 = 60, not 70 as
the double-count reading would give. -/
theorem assignee_no_double_count_cex :
    ((calculateAssigneeSuggestions "fine" (some "") ["fine"] "normal"
        [{ id := 1, username := "fine", first_name := "F", last_name := "N",
           email := "f@n", role := "member", activeTaskCount := 0,
           totalTaskCount := 0 }]).map (fun s => s.score)) = [60] ∧
    ((calculateAssigneeSuggestions "fine" (some "") ["fine"] "normal"
        [{ id := 1, username := "fine", first_name := "F", last_name := "N",
           email := "f@n", role := "member", activeTaskCount := 0,
           totalTaskCount := 0 }]).map (fun s => s.score)) ≠ [70] := by
  constructor
  · decide
  · decide

/-- **C2 (amended).** Each required skill adds +10 when it matches the
task text or the candidate's username, counted once per skill-list entry
even when it matches both places: the raw score with skills equals the
raw score without skills plus 10 times the number of matching entries. -/
theorem assignee_skill_bonus_once (title : String) (description : Option String)
    (skillsRequired : List String) (m : Member) :
    rawAssigneeScore title description skillsRequired m =
      rawAssigneeScore title description [] m +
        ((skillsRequired.filter
          (fun skill => skillMatches (lowerText title description)
            (lowerStr m.username) skill)).length : ℤ) * 10 := by
  cases skillsRequired with
  | nil => simp [rawAssigneeScore]
  | cons sk sks => simp [rawAssigneeScore]

/-- **C8.** Every returned assignee suggestion has a score in [0, 100],
for arbitrary active/total task counts: the summed contributions are
clamped at both ends. -/
theorem assignee_score_clamped (title : String) (description : Option String)
    (skillsRequired : List String) (workload : String) (members : List Member)
    (s : AssigneeSuggestion)
    (hs : s ∈ calculateAssigneeSuggestions title description skillsRequired
      workload members) :
    0 ≤ s.score ∧ s.score ≤ 100 := by
  have h1 : s ∈ (members.map (assigneeEntry title description skillsRequired)).insertionSort
      (fun a b => b.score ≤ a.score) := List.mem_of_mem_take hs
  have h2 : s ∈ members.map (assigneeEntry title description skillsRequired) :=
    (List.perm_insertionSort (fun a b => b.score ≤ a.score) _).mem_iff.mp h1
  obtain ⟨m, _, rfl⟩ := List.mem_map.mp h2
  refine ⟨le_max_left 0 _, ?_⟩
  exact max_le (by norm_num) (min_le_left _ _)

theorem assignee_score_clamped_witness :
    ∃ s, s ∈ calculateAssigneeSuggestions "t" Option.none [] "normal"
        [{ id := 2, username := "u", first_name := "A", last_name := "B",
           email := "a@b", role := "member", activeTaskCount := 1000000,
           totalTaskCount := 7 }] ∧
      0 ≤ s.score ∧ s.score ≤ 100 := by
  have hlist : calculateAssigneeSuggestions "t" Option.none [] "normal"
      [{ id := 2, username := "u", first_name := "A", last_name := "B",
         email := "a@b", role := "member", activeTaskCount := 1000000,
         totalTaskCount := 7 }] =
      [assigneeEntry "t" Option.none []
        { id := 2, username := "u", first_name := "A", last_name := "B",
          email := "a@b", role := "member", activeTaskCount := 1000000,
          totalTaskCount := 7 }] := rfl
  have hmem : assigneeEntry "t" Option.none []
      { id := 2, username := "u", first_name := "A", last_name := "B",
        email := "a@b", role := "member", activeTaskCount := 1000000,
        totalTaskCount := 7 } ∈ calculateAssigneeSuggestions "t" Option.none [] "normal"
      [{ id := 2, username := "u", first_name := "A", last_name := "B",
         email := "a@b", role := "member", activeTaskCount := 1000000,
         totalTaskCount := 7 }] := by
    rw [hlist]
    exact List.mem_singleton_self _
  exact ⟨_, hmem, assignee_score_clamped "t" Option.none [] "normal" _ _ hmem⟩

/-! ## Task Decomposer (`generateTaskBreakdown`) -/

structure Subtask where
  title : String
  estimatedHours : ℤ
  priority : String
deriving DecidableEq

def commonSubtasks : List String :=
  ["Research and planning", "Design and architecture", "Implementation",
   "Testing", "Documentation", "Code review", "Deployment preparation"]

/-- `complexityMap[complexity] || 5`. -/
def complexityCount (c : String) : ℕ :=
  if c = "low" then 3
  else if c = "medium" then 5
  else if c = "high" then 7
  else if c = "very_high" then 9
  else 5

/-- The three independent contextual injections (api/backend, ui/frontend,
database/data), each appending its fixed triple when its keywords occur in
the lower-cased combined text. -/
def contextualSubtasks (text : String) : List Subtask :=
  (if strIncludes text "api" || strIncludes text "backend" then
    [{ title := "Design API endpoints", estimatedHours := 2, priority := "high" },
     { title := "Implement backend logic", estimatedHours := 4, priority := "high" },
     { title := "Add error handling", estimatedHours := 2, priority := "medium" }]
   else [])
  ++ (if strIncludes text "ui" || strIncludes text "frontend" then
    [{ title := "Create UI mockups", estimatedHours := 2, priority := "medium" },
     { title := "Implement user interface", estimatedHours := 4, priority := "high" },
     { title := "Add responsive design", estimatedHours := 2, priority := "medium" }]
   else [])
  ++ (if strIncludes text "database" || strIncludes text "data" then
    [{ title := "Design database schema", estimatedHours := 2, priority := "high" },
     { title := "Create migrations", estimatedHours := 1, priority := "high" },
     { title := "Optimize queries", estimatedHours := 2, priority := "medium" }]
   else [])

/-- The generic pool still available: common subtasks whose name does not
already occur (case-insensitive substring) in a current subtask title. -/
def remainingPool (subtasks : List Subtask) : List String :=
  commonSubtasks.filter
    (fun task => ! subtasks.any (fun st => strIncludes (lowerStr st.title) (lowerStr task)))

/-- JavaScript array indexing: `undefined` outside the bounds. -/
def jsArrayGet (l : List String) (i : ℤ) : Option String :=
  if h : 0 ≤ i ∧ i.toNat < l.length then some (l.get ⟨i.toNat, h.2⟩) else none

/-- `x || d` on a possibly-`undefined`, possibly-empty string. -/
def jsOrStr (o : Option String) (d : String) : String :=
  match o with
  | some s => if s = "" then d else s
  | none => d

/-- The `while (subtasks.length < subtaskCount)` fill loop.  `rand` is the
`Math.random()` stream (three draws per iteration: generic-task index,
priority index, hour estimate) and `k` the number of draws consumed so
far.  The loop adds one subtask per iteration and stops at the target
count or an exhausted pool, so `fuel = target` iterations always suffice;
the fuel argument only makes the recursion structural. -/
def fillSubtasks (rand : ℕ → ℚ) : ℕ → ℕ → ℕ → List Subtask → List Subtask
  | _, 0, _, subtasks => subtasks
  | k, fuel + 1, target, subtasks =>
    if subtasks.length < target then
      let remaining := remainingPool subtasks
      if remaining.length = 0 then subtasks
      else
        let randomTask := jsArrayGet remaining ⌊rand k * (remaining.length : ℚ)⌋
        let priorities := ["low", "medium", "high"]
        let randomPriority := jsArrayGet priorities ⌊rand (k + 1) * 3⌋
        fillSubtasks rand (k + 3) fuel target
          (subtasks ++
            [{ title := jsOrStr randomTask "General task"
               estimatedHours := ⌊rand (k + 2) * 4⌋ + 1
               priority := jsOrStr randomPriority "medium" }])
    else subtasks

/-- `subtasks.reduce((sum, task) => sum + task.estimatedHours, 0)`. -/
def sumHours (l : List Subtask) : ℤ :=
  l.foldl (fun sum t => sum + t.estimatedHours) 0

structure Breakdown where
  subtasks : List Subtask
  totalEstimatedHours : ℤ
  complexity : String
  confidence : ℚ
  recommendations : List String

/-- Embeds `generateTaskBreakdown`: contextual injections, the random fill
loop up to the complexity target, then the total hours are summed over the
accumulated list and the subtask list is truncated to the target count. -/
def generateTaskBreakdown (rand : ℕ → ℚ) (title : String)
    (description : Option String) (complexity : String) : Breakdown :=
  let subtaskCount := complexityCount complexity
  let text := lowerText title description
  let filled := fillSubtasks rand 0 subtaskCount subtaskCount (contextualSubtasks text)
  let totalHours := sumHours filled
  { subtasks := filled.take subtaskCount
    totalEstimatedHours := totalHours
    complexity := complexity
    confidence := 0.7
    recommendations :=
      ["Start with high-priority subtasks",
       "Consider breaking down large subtasks further",
       "Review estimates after beginning work",
       "Update progress regularly"] }

/-! ## Task Decomposer theorems (C3) -/

theorem sumHours_eq_sum_map (l : List Subtask) :
    sumHours l = (l.map (fun t => t.estimatedHours)).sum := by
  have h : ∀ (l : List Subtask) (a : ℤ),
      l.foldl (fun sum t => sum + t.estimatedHours) a =
        a + (l.map (fun t => t.estimatedHours)).sum := by
    intro l
    induction l with
    | nil => intro a; simp
    | cons t ts ih =>
      intro a
      simp [List.foldl, ih, add_assoc]
  simpa using h l 0

theorem sumHours_append (a b : List Subtask) :
    sumHours (a ++ b) = sumHours a + sumHours b := by
  simp [sumHours_eq_sum_map]

/-- **C3 (counterexample).** Title "api ui data" with complexity low: all
three contextual triples fire (9 subtasks, 21 hours), the returned list is
truncated to the 3-subtask target (8 hours), yet `totalEstimatedHours` is
21 — the total is not the sum of the returned subtasks' hours. -/
theorem breakdown_total_cex :
    (generateTaskBreakdown (fun _ => 0) "api ui data" Option.none "low").totalEstimatedHours
        = 21 ∧
    sumHours (generateTaskBreakdown (fun _ => 0) "api ui data" Option.none "low").subtasks
        = 8 ∧
    (generateTaskBreakdown (fun _ => 0) "api ui data" Option.none "low").totalEstimatedHours
        ≠ sumHours (generateTaskBreakdown (fun _ => 0) "api ui data" Option.none "low").subtasks := by
  refine ⟨by decide, by decide, by decide⟩

/-- **C3 (amended).** `totalEstimatedHours` is the sum over the full list
of generated subtasks before truncation: it equals the sum over the
returned (truncated) list plus the hours of the subtasks the truncation
dropped, so it exceeds the returned sum exactly when contextual
injections overshoot the target count. -/
theorem breakdown_total_is_pretruncation_sum (rand : ℕ → ℚ) (title : String)
    (description : Option String) (complexity : String) :
    (generateTaskBreakdown rand title description complexity).totalEstimatedHours =
      sumHours (fillSubtasks rand 0 (complexityCount complexity) (complexityCount complexity)
        (contextualSubtasks (lowerText title description))) ∧
    (generateTaskBreakdown rand title description complexity).subtasks =
      (fillSubtasks rand 0 (complexityCount complexity) (complexityCount complexity)
        (contextualSubtasks (lowerText title description))).take (complexityCount complexity) ∧
    (generateTaskBreakdown rand title description complexity).totalEstimatedHours =
      sumHours (generateTaskBreakdown rand title description complexity).subtasks +
        sumHours ((fillSubtasks rand 0 (complexityCount complexity) (complexityCount complexity)
          (contextualSubtasks (lowerText title description))).drop (complexityCount complexity)) := by
  refine ⟨rfl, rfl, ?_⟩
  have h := sumHours_append
    ((fillSubtasks rand 0 (complexityCount complexity) (complexityCount complexity)
      (contextualSubtasks (lowerText title description))).take (complexityCount complexity))
    ((fillSubtasks rand 0 (complexityCount complexity) (complexityCount complexity)
      (contextualSubtasks (lowerText title description))).drop (complexityCount complexity))
  rw [List.take_append_drop] at h
  exact h

/-! ## The `undefined` description token (C9) -/

theorem containsL_append_right (a b sub : List Char)
    (h : containsL b sub = true) : containsL (a ++ b) sub = true := by
  induction a with
  | nil => simpa using h
  | cons c cs ih =>
    show containsL (c :: (cs ++ b)) sub = true
    simp only [containsL, Bool.or_eq_true]
    exact Or.inr ih

theorem strToList_append (s t : String) : (s ++ t).toList = s.toList ++ t.toList := by
  show (s ++ t).data = s.data ++ t.data
  exact String.data_append s t

/-- The character list of the lower-cased analysis text of a task with no
description: the lower-cased title followed by the literal
`" undefined"`. -/
theorem lowerText_none_toList (title : String) :
    (lowerText title Option.none).toList =
      title.toList.map Char.toLower ++ (" undefined").toList := by
  show ((jsText title Option.none).toList.map Char.toLower) = _
  have h1 : jsText title Option.none = (title ++ " ") ++ "undefined" := rfl
  rw [h1, strToList_append, strToList_append, List.map_append, List.map_append,
    List.append_assoc]
  have h2 : (" ").toList.map Char.toLower ++ ("undefined").toList.map Char.toLower =
      (" undefined").toList := by decide
  rw [h2]

theorem splitSpaces_length (l : List Char) :
    (splitSpaces l).length = l.count ' ' + 1 := by
  induction l with
  | nil => simp [splitSpaces]
  | cons c cs ih =>
    rcases h : splitSpaces cs with _ | ⟨p, ps⟩
    · rw [h] at ih
      simp at ih
    · by_cases hc : c = ' '
      · have hd : decide (c = ' ') = true := by simpa using hc
        simp only [splitSpaces, hd, h]
        rw [h] at ih
        simp only [List.length_cons] at ih ⊢
        simp [List.count_cons, hc, ih]
      · simp only [splitSpaces, h]
        have hd : decide (c = ' ') = false := by simpa using hc
        rw [hd]
        rw [h] at ih
        simp only [List.length_cons] at ih ⊢
        simp [List.count_cons, hc, ih]

/-- **C9.** With the description omitted, every generator's analysis text
is `title + " " + "undefined"`: the literal token `undefined` is part of
the matched text, the Time Estimator's word count is the title's
space-separated token count plus one, and any required skill that is a
substring of "undefined" (such as "fine" or "defined") matches every such
task for every candidate. -/
theorem undefined_description_behavior :
    (∀ title : String, jsText title Option.none = title ++ " " ++ "undefined") ∧
    (∀ title : String, strIncludes (lowerText title Option.none) "undefined" = true) ∧
    (∀ title : String, wordCountStr (jsText title Option.none) = wordCountStr title + 1) ∧
    (∀ title username : String,
      skillMatches (lowerText title Option.none) (lowerStr username) "fine" = true) ∧
    (∀ title username : String,
      skillMatches (lowerText title Option.none) (lowerStr username) "defined" = true) := by
  have hsub : ∀ (title : String) (sub : String),
      containsL ((" undefined").toList) sub.toList = true →
      strIncludes (lowerText title Option.none) sub = true := by
    intro title sub h
    show containsL (lowerText title Option.none).toList sub.toList = true
    rw [lowerText_none_toList]
    exact containsL_append_right _ _ _ h
  refine ⟨fun _ => rfl, ?_, ?_, ?_, ?_⟩
  · intro title
    exact hsub title "undefined" (by decide)
  · intro title
    have h1 : (jsText title Option.none).toList =
        title.toList ++ (' ' :: ("undefined").toList) := by
      have : jsText title Option.none = (title ++ " ") ++ "undefined" := rfl
      rw [this, strToList_append, strToList_append, List.append_assoc]
      rfl
    unfold wordCountStr
    rw [splitSpaces_length, splitSpaces_length, h1, List.count_append]
    have h2 : (' ' :: ("undefined").toList).count ' ' = 1 := by decide
    rw [h2]
  · intro title username
    unfold skillMatches
    have hf : lowerStr "fine" = "fine" := by decide
    rw [hf, hsub title "fine" (by decide)]
    simp
  · intro title username
    unfold skillMatches
    have hf : lowerStr "defined" = "defined" := by decide
    rw [hf, hsub title "defined" (by decide)]
    simp

/-! ## Suggestion Recorder: the `ai_suggestions` persistence contract -/

/-- The serialized `content` column: the generator's result together with
its originating input, per suggestion type. -/
inductive SuggestionPayload where
  | timeEstimation (title : String) (description : Option String)
      (priority taskType : String) (estimation : TimeEstimation)
  | priority (title : String) (description : Option String)
      (dueDateMs : Option ℤ) (suggestion : PrioritySuggestion)
  | assignee (title : String) (description : Option String)
      (skillsRequired : List String) (workload : String)
      (suggestions : List AssigneeSuggestion)
  | taskBreakdown (title : String) (description : Option String)
      (complexity : String) (breakdown : Breakdown)

/-- A persisted row of `ai_suggestions`. -/
structure SuggestionRecord where
  user_id : ℕ
  project_id : Option ℕ
  suggestion_type : String
  content : SuggestionPayload
  created_atMs : ℤ

/-- `projectId || null` (0 is falsy in JavaScript). -/
def jsOrNull (p : Option ℕ) : Option ℕ :=
  match p with
  | some x => if x = 0 then none else some x
  | none => none

/-- Models the single-row `db('ai_suggestions').insert(...).returning('*')`
call: an atomic insert that either appends the record and returns its id
(its index here), or fails leaving the store untouched.  `ok` is the
outcome of the external database call. -/
def dbInsert (ok : Bool) (store : List SuggestionRecord) (r : SuggestionRecord) :
    List SuggestionRecord × Option ℕ :=
  if ok then (store ++ [r], some store.length) else (store, none)

inductive HandlerError where
  | invalidInput
  | persistenceFailure
deriving DecidableEq

/-- The audit row the `estimateTime` handler inserts (this insert carries
no `project_id`). -/
def timeRecord (userId : ℕ) (title : String) (description : Option String)
    (priority taskType : String) (estimation : TimeEstimation) (nowMs : ℤ) :
    SuggestionRecord :=
  { user_id := userId, project_id := none, suggestion_type := "time_estimation"
    content := .timeEstimation title description priority taskType estimation
    created_atMs := nowMs }

/-- The audit row the `suggestPriority` handler inserts. -/
def priorityRecord (userId : ℕ) (title : String) (description : Option String)
    (dueDateMs : Option ℤ) (projectId : Option ℕ) (suggestion : PrioritySuggestion)
    (nowMs : ℤ) : SuggestionRecord :=
  { user_id := userId, project_id := jsOrNull projectId
    suggestion_type := "priority"
    content := .priority title description dueDateMs suggestion
    created_atMs := nowMs }

/-- The audit row the `suggestAssignee` handler inserts. -/
def assigneeRecord (userId : ℕ) (title : String) (description : Option String)
    (projectId : ℕ) (skillsRequired : List String) (workload : String)
    (suggestions : List AssigneeSuggestion) (nowMs : ℤ) : SuggestionRecord :=
  { user_id := userId, project_id := some projectId
    suggestion_type := "assignee"
    content := .assignee title description skillsRequired workload suggestions
    created_atMs := nowMs }

/-- The audit row the `breakdownTask` handler inserts. -/
def breakdownRecord (userId : ℕ) (title : String) (description : Option String)
    (complexity : String) (projectId : Option ℕ) (breakdown : Breakdown)
    (nowMs : ℤ) : SuggestionRecord :=
  { user_id := userId, project_id := jsOrNull projectId
    suggestion_type := "task_breakdown"
    content := .taskBreakdown title description complexity breakdown
    created_atMs := nowMs }

structure TimeResponse where
  estimation : TimeEstimation
  suggestionId : ℕ

structure PriorityResponse where
  suggestion : PrioritySuggestion
  suggestionId : ℕ

structure AssigneeResponse where
  suggestions : List AssigneeSuggestion
  projectMemberCount : ℕ
  suggestionId : ℕ

structure BreakdownResponse where
  breakdown : Breakdown
  suggestionId : ℕ

/-- Embeds the `estimateTime` handler: validate the title, compute the
estimation over the snapshot of completed tasks, insert the audit record
(no `project_id` column in this insert), and only then respond. -/
def estimateTime (dbOk : Bool) (userId : ℕ) (title : String)
    (description : Option String) (priority taskType : String)
    (completedTasks : List HistoricalTask) (nowMs : ℤ)
    (store : List SuggestionRecord) :
    List SuggestionRecord × Except HandlerError TimeResponse :=
  if title = "" then (store, .error .invalidInput)
  else
    let estimation := calculateTimeEstimation title description priority taskType
      completedTasks
    let record := timeRecord userId title description priority taskType estimation nowMs
    match dbInsert dbOk store record with
    | (store', some id) => (store', .ok { estimation := estimation, suggestionId := id })
    | (store', none) => (store', .error .persistenceFailure)

/-- Embeds the `suggestPriority` handler: validate, compute, insert the
audit record (`project_id: projectId || null`), respond. -/
def suggestPriority (dbOk : Bool) (userId : ℕ) (title : String)
    (description : Option String) (dueDateMs : Option ℤ) (projectId : Option ℕ)
    (projectStatus : Option String) (nowMs : ℤ) (store : List SuggestionRecord) :
    List SuggestionRecord × Except HandlerError PriorityResponse :=
  if title = "" then (store, .error .invalidInput)
  else
    let suggestion := calculatePrioritySuggestion title description dueDateMs nowMs
      projectStatus
    let record := priorityRecord userId title description dueDateMs projectId
      suggestion nowMs
    match dbInsert dbOk store record with
    | (store', some id) => (store', .ok { suggestion := suggestion, suggestionId := id })
    | (store', none) => (store', .error .persistenceFailure)

/-- Embeds the `suggestAssignee` handler: validate title and project id,
rank the supplied member roster, insert the audit record, respond. -/
def suggestAssignee (dbOk : Bool) (userId : ℕ) (title : String)
    (description : Option String) (projectId : ℕ) (skillsRequired : List String)
    (workload : String) (memberWorkloads : List Member) (nowMs : ℤ)
    (store : List SuggestionRecord) :
    List SuggestionRecord × Except HandlerError AssigneeResponse :=
  if title = "" ∨ projectId = 0 then (store, .error .invalidInput)
  else
    let suggestions := calculateAssigneeSuggestions title description skillsRequired
      workload memberWorkloads
    let record := assigneeRecord userId title description projectId skillsRequired
      workload suggestions nowMs
    match dbInsert dbOk store record with
    | (store', some id) =>
      (store', .ok { suggestions := suggestions
                     projectMemberCount := memberWorkloads.length
                     suggestionId := id })
    | (store', none) => (store', .error .persistenceFailure)

/-- Embeds the `breakdownTask` handler: validate, decompose (with the
supplied random stream), insert the audit record, respond. -/
def breakdownTask (dbOk : Bool) (userId : ℕ) (rand : ℕ → ℚ) (title : String)
    (description : Option String) (complexity : String) (projectId : Option ℕ)
    (nowMs : ℤ) (store : List SuggestionRecord) :
    List SuggestionRecord × Except HandlerError BreakdownResponse :=
  if title = "" then (store, .error .invalidInput)
  else
    let breakdown := generateTaskBreakdown rand title description complexity
    let record := breakdownRecord userId title description complexity projectId
      breakdown nowMs
    match dbInsert dbOk store record with
    | (store', some id) => (store', .ok { breakdown := breakdown, suggestionId := id })
    | (store', none) => (store', .error .persistenceFailure)

/-! ## Persistence contract theorem (C1) -/

/-- **C1.** For each of the four generator handlers: when the audit-record
insert fails the handler returns the persistence error with the store
unchanged (no partial record), and whenever a response is returned the
store has been extended with exactly one record, already committed, and
the response's `suggestionId` addresses that record. -/
theorem every_result_has_committed_record :
    (∀ (userId : ℕ) (title : String) (description : Option String)
       (priority taskType : String) (tasks : List HistoricalTask) (nowMs : ℤ)
       (store : List SuggestionRecord),
      (title ≠ "" →
        estimateTime false userId title description priority taskType tasks nowMs store =
          (store, Except.error HandlerError.persistenceFailure)) ∧
      (∀ (dbOk : Bool) (resp : TimeResponse),
        (estimateTime dbOk userId title description priority taskType tasks nowMs
          store).2 = Except.ok resp →
        ∃ rec,
          (estimateTime dbOk userId title description priority taskType tasks nowMs
            store).1 = store ++ [rec] ∧
          ((estimateTime dbOk userId title description priority taskType tasks nowMs
            store).1)[resp.suggestionId]? = some rec)) ∧
    (∀ (userId : ℕ) (title : String) (description : Option String)
       (dueDateMs : Option ℤ) (projectId : Option ℕ) (projectStatus : Option String)
       (nowMs : ℤ) (store : List SuggestionRecord),
      (title ≠ "" →
        suggestPriority false userId title description dueDateMs projectId
          projectStatus nowMs store =
          (store, Except.error HandlerError.persistenceFailure)) ∧
      (∀ (dbOk : Bool) (resp : PriorityResponse),
        (suggestPriority dbOk userId title description dueDateMs projectId
          projectStatus nowMs store).2 = Except.ok resp →
        ∃ rec,
          (suggestPriority dbOk userId title description dueDateMs projectId
            projectStatus nowMs store).1 = store ++ [rec] ∧
          ((suggestPriority dbOk userId title description dueDateMs projectId
            projectStatus nowMs store).1)[resp.suggestionId]? = some rec)) ∧
    (∀ (userId : ℕ) (title : String) (description : Option String) (projectId : ℕ)
       (skillsRequired : List String) (workload : String)
       (memberWorkloads : List Member) (nowMs : ℤ) (store : List SuggestionRecord),
      (title ≠ "" → projectId ≠ 0 →
        suggestAssignee false userId title description projectId skillsRequired
          workload memberWorkloads nowMs store =
          (store, Except.error HandlerError.persistenceFailure)) ∧
      (∀ (dbOk : Bool) (resp : AssigneeResponse),
        (suggestAssignee dbOk userId title description projectId skillsRequired
          workload memberWorkloads nowMs store).2 = Except.ok resp →
        ∃ rec,
          (suggestAssignee dbOk userId title description projectId skillsRequired
            workload memberWorkloads nowMs store).1 = store ++ [rec] ∧
          ((suggestAssignee dbOk userId title description projectId skillsRequired
            workload memberWorkloads nowMs store).1)[resp.suggestionId]? = some rec)) ∧
    (∀ (userId : ℕ) (rand : ℕ → ℚ) (title : String) (description : Option String)
       (complexity : String) (projectId : Option ℕ) (nowMs : ℤ)
       (store : List SuggestionRecord),
      (title ≠ "" →
        breakdownTask false userId rand title description complexity projectId
          nowMs store =
          (store, Except.error HandlerError.persistenceFailure)) ∧
      (∀ (dbOk : Bool) (resp : BreakdownResponse),
        (breakdownTask dbOk userId rand title description complexity projectId
          nowMs store).2 = Except.ok resp →
        ∃ rec,
          (breakdownTask dbOk userId rand title description complexity projectId
            nowMs store).1 = store ++ [rec] ∧
          ((breakdownTask dbOk userId rand title description complexity projectId
            nowMs store).1)[resp.suggestionId]? = some rec)) := by
  refine ⟨?_, ?_, ?_, ?_⟩
  · intro userId title description priority taskType tasks nowMs store
    constructor
    · intro ht
      simp [estimateTime, ht, dbInsert]
    · intro dbOk resp h
      cases dbOk with
      | false =>
        exfalso
        by_cases hT : title = "" <;> simp [estimateTime, hT, dbInsert] at h
      | true =>
        by_cases hT : title = ""
        · exfalso
          simp [estimateTime, hT] at h
        · have h2 : (estimateTime true userId title description priority taskType tasks
              nowMs store).2 =
              Except.ok { estimation := calculateTimeEstimation title description
                            priority taskType tasks
                          suggestionId := store.length } := by
            simp [estimateTime, hT, dbInsert]
          rw [h2] at h
          injection h with h3
          refine ⟨timeRecord userId title description priority taskType
            (calculateTimeEstimation title description priority taskType tasks) nowMs,
            ?_, ?_⟩
          · simp [estimateTime, hT, dbInsert]
          · have h4 : (estimateTime true userId title description priority taskType tasks
                nowMs store).1 =
                store ++ [timeRecord userId title description priority taskType
                  (calculateTimeEstimation title description priority taskType tasks)
                  nowMs] := by
              simp [estimateTime, hT, dbInsert]
            rw [h4, ← h3]
            exact List.getElem?_concat_length _ _
  · intro userId title description dueDateMs projectId projectStatus nowMs store
    constructor
    · intro ht
      simp [suggestPriority, ht, dbInsert]
    · intro dbOk resp h
      cases dbOk with
      | false =>
        exfalso
        by_cases hT : title = "" <;> simp [suggestPriority, hT, dbInsert] at h
      | true =>
        by_cases hT : title = ""
        · exfalso
          simp [suggestPriority, hT] at h
        · have h2 : (suggestPriority true userId title description dueDateMs projectId
              projectStatus nowMs store).2 =
              Except.ok { suggestion := calculatePrioritySuggestion title description
                            dueDateMs nowMs projectStatus
                          suggestionId := store.length } := by
            simp [suggestPriority, hT, dbInsert]
          rw [h2] at h
          injection h with h3
          refine ⟨priorityRecord userId title description dueDateMs projectId
            (calculatePrioritySuggestion title description dueDateMs nowMs projectStatus)
            nowMs, ?_, ?_⟩
          · simp [suggestPriority, hT, dbInsert]
          · have h4 : (suggestPriority true userId title description dueDateMs projectId
                projectStatus nowMs store).1 =
                store ++ [priorityRecord userId title description dueDateMs projectId
                  (calculatePrioritySuggestion title description dueDateMs nowMs
                    projectStatus) nowMs] := by
              simp [suggestPriority, hT, dbInsert]
            rw [h4, ← h3]
            exact List.getElem?_concat_length _ _
  · intro userId title description projectId skillsRequired workload memberWorkloads
      nowMs store
    constructor
    · intro ht hp
      have hV : ¬(title = "" ∨ projectId = 0) := by simp [ht, hp]
      simp [suggestAssignee, hV, dbInsert]
    · intro dbOk resp h
      cases dbOk with
      | false =>
        exfalso
        by_cases hV : title = "" ∨ projectId = 0 <;>
          simp [suggestAssignee, hV, dbInsert] at h
      | true =>
        by_cases hV : title = "" ∨ projectId = 0
        · exfalso
          simp [suggestAssignee, hV] at h
        · have h2 : (suggestAssignee true userId title description projectId
              skillsRequired workload memberWorkloads nowMs store).2 =
              Except.ok { suggestions := calculateAssigneeSuggestions title description
                            skillsRequired workload memberWorkloads
                          projectMemberCount := memberWorkloads.length
                          suggestionId := store.length } := by
            simp [suggestAssignee, hV, dbInsert]
          rw [h2] at h
          injection h with h3
          refine ⟨assigneeRecord userId title description projectId skillsRequired
            workload (calculateAssigneeSuggestions title description skillsRequired
              workload memberWorkloads) nowMs, ?_, ?_⟩
          · simp [suggestAssignee, hV, dbInsert]
          · have h4 : (suggestAssignee true userId title description projectId
                skillsRequired workload memberWorkloads nowMs store).1 =
                store ++ [assigneeRecord userId title description projectId
                  skillsRequired workload (calculateAssigneeSuggestions title
                    description skillsRequired workload memberWorkloads) nowMs] := by
              simp [suggestAssignee, hV, dbInsert]
            rw [h4, ← h3]
            exact List.getElem?_concat_length _ _
  · intro userId rand title description complexity projectId nowMs store
    constructor
    · intro ht
      simp [breakdownTask, ht, dbInsert]
    · intro dbOk resp h
      cases dbOk with
      | false =>
        exfalso
        by_cases hT : title = "" <;> simp [breakdownTask, hT, dbInsert] at h
      | true =>
        by_cases hT : title = ""
        · exfalso
          simp [breakdownTask, hT] at h
        · have h2 : (breakdownTask true userId rand title description complexity
              projectId nowMs store).2 =
              Except.ok { breakdown := generateTaskBreakdown rand title description
                            complexity
                          suggestionId := store.length } := by
            simp [breakdownTask, hT, dbInsert]
          rw [h2] at h
          injection h with h3
          refine ⟨breakdownRecord userId title description complexity projectId
            (generateTaskBreakdown rand title description complexity) nowMs, ?_, ?_⟩
          · simp [breakdownTask, hT, dbInsert]
          · have h4 : (breakdownTask true userId rand title description complexity
                projectId nowMs store).1 =
                store ++ [breakdownRecord userId title description complexity projectId
                  (generateTaskBreakdown rand title description complexity) nowMs] := by
              simp [breakdownTask, hT, dbInsert]
            rw [h4, ← h3]
            exact List.getElem?_concat_length _ _

theorem every_result_has_committed_record_witness :
    estimateTime false 1 "t" Option.none "medium" "general" [] 0 [] =
      ([], Except.error HandlerError.persistenceFailure) ∧
    (∃ rec, (estimateTime true 1 "t" Option.none "medium" "general" [] 0 []).1 =
        [] ++ [rec] ∧
      ((estimateTime true 1 "t" Option.none "medium" "general" [] 0 []).1)[
        (0 : ℕ)]? = some rec) ∧
    suggestPriority false 1 "t" Option.none Option.none Option.none Option.none 0 [] =
      ([], Except.error HandlerError.persistenceFailure) ∧
    suggestAssignee false 1 "t" Option.none 5 [] "normal" [] 0 [] =
      ([], Except.error HandlerError.persistenceFailure) ∧
    breakdownTask false 1 (fun _ => 0) "t" Option.none "low" Option.none 0 [] =
      ([], Except.error HandlerError.persistenceFailure) :=
  ⟨(every_result_has_committed_record.1 1 "t" Option.none "medium" "general" [] 0 []).1
      (by decide),
   (every_result_has_committed_record.1 1 "t" Option.none "medium" "general" [] 0 []).2
      true
      { estimation := calculateTimeEstimation "t" Option.none "medium" "general" []
        suggestionId := 0 }
      rfl,
   (every_result_has_committed_record.2.1 1 "t" Option.none Option.none Option.none
      Option.none 0 []).1 (by decide),
   (every_result_has_committed_record.2.2.1 1 "t" Option.none 5 [] "normal" [] 0 []).1
      (by decide) (by decide),
   (every_result_has_committed_record.2.2.2 1 (fun _ => 0) "t" Option.none "low"
      Option.none 0 []).1 (by decide)⟩
